import Mathlib

/-!
# Braintree client: error classification, request execution, input sanitising

A shallow embedding of `error.go`, `execute.go`, `subscription.go` and
`transaction.go`.

Conventions of the embedding.

* Go `int` is `Int`, Go `string` is `String`, a Go slice is a `List`, a nilable
  pointer is an `Option`.
* A Go `error` result is an `Option Err` when `nil` is a possible value of the
  source function's result type and the claim is about it (`parseError`), and the
  error side of an `Except` when the function also yields a value.
* The standard library and the network are outside the repository.  What they do
  is either modelled after their documented behaviour (`Atoi`, `NewRequest`, the
  field selection of `encoding/xml`) or taken from a `Runtime` record
  (XML coding of opaque bodies, the HTTP round trip).
-/

namespace BraintreeGo

deriving instance DecidableEq for Except

/-! ## Errors (`error.go`) -/

/-- A GatewayError is returned if a payment is blocked by gateway settings. -/
structure GatewayError where
  Message : String
  deriving DecidableEq, Repr

/-- A ProcessorError is returned if a payment failed. -/
structure ProcessorError where
  Code : Int
  Message : String
  deriving DecidableEq, Repr

/-- A ValidationError is returned in response to an invalid api call. -/
structure ValidationError where
  Attribute : String
  Code : Int
  Message : String
  deriving DecidableEq, Repr

/-- The two sentinel errors of `strconv`: `ErrSyntax` is `invalid`, `ErrRange` is `range`. -/
inductive NumErrorKind where
  | invalid
  | range
  deriving DecidableEq, Repr

/-- The `strconv.NumError` record: the failing function, the input and the reason. -/
structure NumError where
  Func : String
  Num : String
  Err : NumErrorKind
  deriving DecidableEq, Repr

/-- The dynamic types an `error` value takes in this package.  `text msg` is the value of
`errors.New(msg)` and of `fmt.Errorf` without wrapping: an error whose `Error()` is `msg`.
`xml` and `transport` are errors of `encoding/xml` and `net/http`, kept by their text. -/
inductive Err where
  | validation (e : ValidationError)
  | gateway (e : GatewayError)
  | processor (e : ProcessorError)
  | num (e : NumError)
  | text (msg : String)
  | xml (msg : String)
  | transport (msg : String)
  deriving DecidableEq, Repr

/-- The verb `%d` of `fmt` applied to an `int`. -/
def fmtInt (n : Int) : String :=
  match n with
  | Int.ofNat m => Nat.repr m
  | Int.negSucc m => "-" ++ Nat.repr (m + 1)

/-- Method `(*GatewayError).Error`. -/
def GatewayError.Error (e : GatewayError) : String :=
  e.Message

/-- Method `(*ProcessorError).Error`: `fmt.Sprintf("Code %d: %s", e.Code, e.Message)`. -/
def ProcessorError.Error (e : ProcessorError) : String :=
  "Code " ++ fmtInt e.Code ++ ": " ++ e.Message

/-- Method `(*ValidationError).Error`: `fmt.Sprintf("Code %d: %s", e.Code, e.Message)`. -/
def ValidationError.Error (e : ValidationError) : String :=
  "Code " ++ fmtInt e.Code ++ ": " ++ e.Message

/-- Function `errors.New`. -/
def errorsNew (msg : String) : Err :=
  Err.text msg

/-! ## `strconv.Atoi` (Go standard library, 64-bit `int`) -/

/-- Largest `uint64`. -/
def maxUint64 : Nat := 2 ^ 64 - 1

/-- The digit loop of `strconv.ParseUint(s, 10, 64)`: bytes are read left to right; a byte
that is not a decimal digit is a syntax error, an accumulator that leaves `uint64` is a range
error, whichever comes first. -/
def parseUintLoop : List Char → Nat → Except NumErrorKind Nat
  | [], n => .ok n
  | c :: cs, n =>
    if 48 ≤ c.toNat ∧ c.toNat ≤ 57 then
      if n ≥ maxUint64 / 10 + 1 then .error .range
      else if n * 10 + (c.toNat - 48) > maxUint64 then .error .range
      else parseUintLoop cs (n * 10 + (c.toNat - 48))
    else .error .invalid

/-- Function `strconv.Atoi` for a 64-bit `int`: an optional sign, then at least one decimal
digit and nothing else; the value must lie in `[-2^63, 2^63 - 1]`.  Every error is a
`NumError` with `Func = "Atoi"` and `Num` the whole input. -/
def Atoi (s : String) : Except NumError Int :=
  let fail (k : NumErrorKind) : Except NumError Int :=
    .error { Func := "Atoi", Num := s, Err := k }
  match s.toList with
  | [] => fail .invalid
  | c :: rest =>
    let neg : Bool := c = '-'
    let digits : List Char := if c = '-' ∨ c = '+' then rest else c :: rest
    match digits with
    | [] => fail .invalid
    | d :: ds =>
      match parseUintLoop (d :: ds) 0 with
      | .error .invalid => fail .invalid
      | .error .range => fail .range
      | .ok un =>
        if !neg ∧ un ≥ 2 ^ 63 then fail .range
        else if neg ∧ un > 2 ^ 63 then fail .range
        else .ok (if neg then - (un : Int) else (un : Int))

/-! ## The error envelope and `parseError` (`error.go`, `transaction.go`) -/

/-- Status constant `TransactionStatusGatewayRejected`. -/
def TransactionStatusGatewayRejected : String := "gateway_rejected"

/-- HTTP status constants of `net/http` used by the package. -/
def StatusOK : Int := 200

/-- Constant `http.StatusCreated`. -/
def StatusCreated : Int := 201

/-- Constant `http.StatusNotFound`. -/
def StatusNotFound : Int := 404

/-- Constant `http.StatusUnprocessableEntity`. -/
def StatusUnprocessableEntity : Int := 422

/-- A Transaction on braintree, restricted to the fields whose types are declared in the
package sources at hand (strings, booleans, string lists).  `Amount`, `BillingDetails`,
`CreatedAt`, `CustomFields` and `UpdatedAt` have types declared elsewhere and are read by
no function embedded here. -/
structure Transaction where
  AdditionalProcessorResponse : String := ""
  Channel : String := ""
  CurrencyISOCode : String := ""
  EscrowStatus : String := ""
  GatewayRejectionReason : String := ""
  ID : String := ""
  MerchantAccountID : String := ""
  OrderID : String := ""
  PaymentInstrumentType : String := ""
  PlanID : String := ""
  ProcessorResponseCode : String := ""
  ProcessorResponseText : String := ""
  ProcessorSettlementResponseCode : String := ""
  ProcessorSettlementResponseText : String := ""
  PurchaseOrderNumber : String := ""
  RefundedTransactionID : String := ""
  SettlementBatchID : String := ""
  Status : String := ""
  StatusHistory : List String := []
  SubscriptionID : String := ""
  TaxExempt : Bool := false
  Type_ : String := ""
  deriving DecidableEq, Repr

/-- The anonymous struct `errs` that `parseError` decodes the body into
(root element `api-error-response`). -/
structure ErrorEnvelope where
  Address : List ValidationError := []
  ClientToken : List ValidationError := []
  CreditCard : List ValidationError := []
  Customer : List ValidationError := []
  Subscription : List ValidationError := []
  Transaction : List ValidationError := []
  TransactionResponse : Option BraintreeGo.Transaction := none
  deriving DecidableEq, Repr

/-- The part of `http.Response` the package reads.  `Body` is the byte content. -/
structure Response where
  StatusCode : Int
  Status : String
  Body : String
  deriving DecidableEq, Repr

/-- Function `parseError`.  `decode` is `xml.NewDecoder(resp.Body).Decode(&errs)`: the
decoded envelope, or the decoder's error.  The result is a Go `error`: `none` is `nil`. -/
def parseError (decode : String → Except Err ErrorEnvelope) (resp : Response) : Option Err :=
  if resp.StatusCode ≠ StatusUnprocessableEntity then
    some (errorsNew resp.Status)
  else
    match decode resp.Body with
    | .error err => some err
    | .ok errs =>
      -- look for ValidationErrors
      let valErrs := errs.Address ++ errs.ClientToken
      let valErrs := valErrs ++ errs.CreditCard
      let valErrs := valErrs ++ errs.Customer
      let valErrs := valErrs ++ errs.Subscription
      let valErrs := valErrs ++ errs.Transaction
      match valErrs with
      | v :: _ => some (Err.validation v)
      | [] =>
        match errs.TransactionResponse with
        | some tx =>
          -- look for GatewayErrors
          if tx.Status = TransactionStatusGatewayRejected then
            some (Err.gateway { Message := tx.GatewayRejectionReason })
          -- look for ProcessorErrors
          else if tx.ProcessorResponseCode ≠ "" then
            match Atoi tx.ProcessorResponseCode with
            | .error err => some (Err.num err)
            | .ok code => some (Err.processor { Code := code, Message := tx.ProcessorResponseText })
          else
            -- return the status for errors we are not handling yet
            some (errorsNew resp.Status)
        | none => some (errorsNew resp.Status)

/-! ## Subscriptions (`subscription.go`) -/

/-- The struct `decimal.Decimal` (`value *big.Int`, `exp int32`).  The pointer is kept by
what it points to: `none` is the nil pointer.  The package compares a `Decimal` only with
`decimal.Decimal{}`, whose pointer is nil, and for that comparison the target of a non-nil
pointer is immaterial. -/
structure Decimal where
  value : Option Int := none
  exp : Int := 0
  deriving DecidableEq, Repr

/-- A Subscription on braintree, without the two `time.Time` fields. -/
structure Subscription where
  BillingDayOfMonth : Int := 0
  CurrentBillingCycle : Int := 0
  ID : String := ""
  PaymentMethodToken : String := ""
  PlanID : String := ""
  Price : Decimal := {}
  Status : String := ""
  deriving DecidableEq, Repr

/-- SubscriptionInput is used to create or update a subscription. -/
structure SubscriptionInput where
  BillingDayOfMonth : Int := 0
  ID : String := ""
  MerchantAccountID : String := ""
  NeverExpires : Bool := false
  PaymentMethodNonce : String := ""
  PaymentMethodToken : String := ""
  PlanID : String := ""
  Price : Decimal := {}
  TrialDuration : Int := 0
  TrialDurationUnit : String := ""
  TrialPeriod : Bool := false
  deriving DecidableEq, Repr

/-- The struct `subscriptionInputSanitized` (XML element `subscription`); `Price` is a
pointer. -/
structure subscriptionInputSanitized where
  BillingDayOfMonth : Int := 0
  ID : String := ""
  MerchantAccountID : String := ""
  NeverExpires : Bool := false
  PaymentMethodNonce : String := ""
  PaymentMethodToken : String := ""
  PlanID : String := ""
  Price : Option Decimal := none
  TrialDuration : Int := 0
  TrialDurationUnit : String := ""
  TrialPeriod : Bool := false
  deriving DecidableEq, Repr

/-- Method `SubscriptionInput.sanitize`.  The composite literal names nine fields; the ones
it does not name (`NeverExpires`, `Price`) start at their zero value, and `Price` is then
set when the input price differs from `decimal.Decimal{}`. -/
def SubscriptionInput.sanitize (si : SubscriptionInput) : subscriptionInputSanitized :=
  let sis : subscriptionInputSanitized :=
    { BillingDayOfMonth := si.BillingDayOfMonth
      ID := si.ID
      MerchantAccountID := si.MerchantAccountID
      PaymentMethodNonce := si.PaymentMethodNonce
      PaymentMethodToken := si.PaymentMethodToken
      PlanID := si.PlanID
      TrialDuration := si.TrialDuration
      TrialDurationUnit := si.TrialDurationUnit
      TrialPeriod := si.TrialPeriod }
  if si.Price ≠ ({} : Decimal) then
    { sis with Price := some si.Price }
  else
    sis

/-! ## Field selection of `encoding/xml` -/

/-- The value of a struct field as `encoding/xml` sees it. -/
inductive FieldValue where
  | int (i : Int)
  | str (s : String)
  | bool (b : Bool)
  | decimalPtr (p : Option Decimal)
  deriving DecidableEq, Repr

/-- A struct field with its `xml` tag: element name and the `omitempty` flag. -/
structure Field where
  Name : String
  OmitEmpty : Bool
  Value : FieldValue
  deriving DecidableEq, Repr

/-- An element written to the body: its name and the value that is its text. -/
structure XmlElement where
  Name : String
  Value : FieldValue
  deriving DecidableEq, Repr

/-- An encoded struct: the root element (from `XMLName`) and its child elements in order. -/
structure XmlDocument where
  Name : String
  Children : List XmlElement
  deriving DecidableEq, Repr

/-- Function `isEmptyValue` of `encoding/xml`: `false`, `0`, a nil pointer and a string of
length zero are empty. -/
def isEmptyValue : FieldValue → Bool
  | .int i => i == 0
  | .str s => s.length == 0
  | .bool b => !b
  | .decimalPtr p => p.isNone

/-- One field as the encoder treats it: skipped when it is tagged `omitempty` and empty,
skipped when it is a nil pointer, written as an element otherwise. -/
def marshalField (f : Field) : Option XmlElement :=
  if f.OmitEmpty && isEmptyValue f.Value then none
  else
    match f.Value with
    | .decimalPtr none => none
    | v => some { Name := f.Name, Value := v }

/-- The `xml` tags of `subscriptionInputSanitized`, in declaration order. -/
def subscriptionInputSanitized.fields (sis : subscriptionInputSanitized) : List Field :=
  [ { Name := "billing-day-of-month", OmitEmpty := true, Value := .int sis.BillingDayOfMonth },
    { Name := "id", OmitEmpty := true, Value := .str sis.ID },
    { Name := "merchant-account-id", OmitEmpty := true, Value := .str sis.MerchantAccountID },
    { Name := "never-expires", OmitEmpty := true, Value := .bool sis.NeverExpires },
    { Name := "payment-method-nonce", OmitEmpty := true, Value := .str sis.PaymentMethodNonce },
    { Name := "payment-method-token", OmitEmpty := true, Value := .str sis.PaymentMethodToken },
    { Name := "plan-id", OmitEmpty := false, Value := .str sis.PlanID },
    { Name := "price", OmitEmpty := true, Value := .decimalPtr sis.Price },
    { Name := "trial-duration", OmitEmpty := true, Value := .int sis.TrialDuration },
    { Name := "trial-duration-unit", OmitEmpty := true, Value := .str sis.TrialDurationUnit },
    { Name := "trial-period", OmitEmpty := true, Value := .bool sis.TrialPeriod } ]

/-- The body `encoding/xml` writes for a `subscriptionInputSanitized`. -/
def subscriptionInputSanitized.marshal (sis : subscriptionInputSanitized) : XmlDocument :=
  { Name := "subscription", Children := sis.fields.filterMap marshalField }

/-- The document has a child element of the given name. -/
def XmlDocument.hasElement (d : XmlDocument) (name : String) : Bool :=
  d.Children.any (fun e => e.Name == name)

/-- The values of the child elements of the given name. -/
def XmlDocument.elementValues (d : XmlDocument) (name : String) : List FieldValue :=
  (d.Children.filter (fun e => e.Name == name)).map (fun e => e.Value)

/-! ## Transactions input (`transaction.go`) -/

/-- TransactionOptions are optional settings for creating a transaction. -/
structure TransactionOptions where
  AddBillingAddressToPaymentMethod : Bool := false
  HoldInEscrow : Bool := false
  StoreInVault : Bool := false
  StoreInVaultOnSuccess : Bool := false
  SubmitForSettlement : Bool := false
  deriving DecidableEq, Repr

/-- TransactionInput is used to do a sale.  `XMLName` is kept by its local name.  The fields
`Billing`, `CustomFields`, `Customer` and `Shipping` have types declared outside the sources
at hand and are read by no function embedded here. -/
structure TransactionInput where
  XMLName : String := ""
  Amount : Decimal := {}
  BillingAddressID : String := ""
  Channel : String := ""
  CustomerID : String := ""
  DeviceData : String := ""
  DeviceSessionID : String := ""
  MerchantAccountID : String := ""
  Options : Option TransactionOptions := none
  OrderID : String := ""
  PaymentMethodNonce : String := ""
  PaymentMethodToken : String := ""
  PurchaseOrderNumber : String := ""
  Recurring : Bool := false
  ShippingAddressID : String := ""
  TaxExempt : Bool := false
  TransactionSource : String := ""
  Type_ : String := ""
  deriving DecidableEq, Repr

/-! ## The request executor (`execute.go`) -/

/-- The client value `Braintree`: the four configuration strings `execute` reads. -/
structure Braintree where
  environment : String
  merchantID : String
  publicKey : String
  privateKey : String
  deriving DecidableEq, Repr

/-- The values the gateways pass as `payload interface{}`. -/
inductive Payload where
  | nil
  | subscription (sis : subscriptionInputSanitized)
  | transaction (t : TransactionInput)
  deriving DecidableEq, Repr

/-- An outgoing `http.Request`: the method, the URL string given to `http.NewRequest`, the
headers in the order they were set, the basic-auth credentials and the body. -/
structure Request where
  Method : String
  URL : String
  Header : List (String × String) := []
  BasicAuth : Option (String × String) := none
  Body : String := ""
  deriving DecidableEq, Repr

/-- What the standard library and the network do for one call of `execute`. -/
structure Runtime where
  /-- The call `xml.NewEncoder(buf).Encode(payload)`: the bytes written, or the error. -/
  xmlEncode : Payload → Except Err String
  /-- The error `http.NewRequest` reports for a method and URL it rejects. -/
  requestErr : String → String → Option Err
  /-- The call `http.DefaultClient.Do(req)`. -/
  Do : Request → Except Err Response
  /-- The call `xml.NewDecoder(resp.Body).Decode(v)` for `v *Subscription`. -/
  decodeSubscription : String → Except Err Subscription
  /-- The call `xml.NewDecoder(resp.Body).Decode(v)` for `v *Transaction`. -/
  decodeTransaction : String → Except Err Transaction
  /-- The call `xml.NewDecoder(resp.Body).Decode(&errs)` of `parseError`. -/
  decodeEnvelope : String → Except Err ErrorEnvelope

/-- Constants `http.MethodGet`, `http.MethodPost`, `http.MethodPut`. -/
def MethodGet : String := "GET"

/-- Constant `http.MethodPost`. -/
def MethodPost : String := "POST"

/-- Constant `http.MethodPut`. -/
def MethodPut : String := "PUT"

/-- Function `http.NewRequest`: an empty method means `GET`; the method and the URL are
checked; the request carries them and the body. -/
def NewRequest (rt : Runtime) (method url body : String) : Except Err Request :=
  let method := if method = "" then "GET" else method
  match rt.requestErr method url with
  | some err => .error err
  | none => .ok { Method := method, URL := url, Body := body }

/-- Method `Header.Set`: the entry of the key is replaced, or added at the end. -/
def Request.headerSet (req : Request) (key value : String) : Request :=
  { req with Header := (req.Header.filter (fun kv => kv.1 != key)) ++ [(key, value)] }

/-- Method `Request.SetBasicAuth`. -/
def Request.SetBasicAuth (req : Request) (username password : String) : Request :=
  { req with BasicAuth := some (username, password) }

/-- Function `fmt.Errorf("unexpected error: %d: %s", code, status)`. -/
def unexpectedError (code : Int) (status : String) : Err :=
  Err.text ("unexpected error: " ++ fmtInt code ++ ": " ++ status)

/-- What one call leaves behind: the requests handed to the HTTP client, and the returned
value (`v` filled in, or the error). -/
structure Outcome (V : Type) where
  sent : List Request
  result : Except Err V

/-- Method `Braintree.execute`.  `decodeV` decodes a success body into the destination `v`. -/
def Braintree.execute {V : Type} (bt : Braintree) (rt : Runtime) (decodeV : String → Except Err V)
    (method path : String) (payload : Payload) : Outcome V :=
  let url := "https://" ++ bt.environment ++ ".braintreegateway.com/merchants/" ++ bt.merchantID
    ++ "/" ++ path
  match rt.xmlEncode payload with
  | .error err => { sent := [], result := .error err }
  | .ok buf =>
    match NewRequest rt method url buf with
    | .error err => { sent := [], result := .error err }
    | .ok req =>
      let req := req.headerSet "X-ApiVersion" "4"
      let req := req.headerSet "Content-Type" "application/xml"
      let req := req.SetBasicAuth bt.publicKey bt.privateKey
      match rt.Do req with
      | .error err => { sent := [req], result := .error err }
      | .ok resp =>
        if resp.StatusCode = StatusOK ∨ resp.StatusCode = StatusCreated then
          { sent := [req], result := decodeV resp.Body }
        else if resp.StatusCode = StatusNotFound then
          { sent := [req], result := .error (errorsNew "404: not found") }
        else
          { sent := [req], result := .error (unexpectedError resp.StatusCode resp.Status) }

/-! ## Resource gateways (`subscription.go`, `transaction.go`) -/

/-- SubscriptionGW is a Subscription Gateway. -/
structure SubscriptionGW where
  bt : Braintree

/-- TransactionGW is a transaction gateway. -/
structure TransactionGW where
  bt : Braintree

/-- Cancel a subscription on braintree. -/
def SubscriptionGW.Cancel (sgw : SubscriptionGW) (rt : Runtime) (id : String) :
    Outcome Subscription :=
  sgw.bt.execute rt rt.decodeSubscription MethodPut ("subscriptions/" ++ id ++ "/cancel")
    Payload.nil

/-- Create a subscription on braintree. -/
def SubscriptionGW.Create (sgw : SubscriptionGW) (rt : Runtime)
    (subscriptionInput : SubscriptionInput) : Outcome Subscription :=
  sgw.bt.execute rt rt.decodeSubscription MethodPost "subscriptions"
    (Payload.subscription subscriptionInput.sanitize)

/-- Find a subscription with a given subscription id on braintree. -/
def SubscriptionGW.Find (sgw : SubscriptionGW) (rt : Runtime) (id : String) :
    Outcome Subscription :=
  sgw.bt.execute rt rt.decodeSubscription MethodGet ("subscriptions/" ++ id) Payload.nil

/-- Update a subscription on braintree. -/
def SubscriptionGW.Update (sgw : SubscriptionGW) (rt : Runtime)
    (subscriptionInput : SubscriptionInput) : Outcome Subscription :=
  sgw.bt.execute rt rt.decodeSubscription MethodPut ("subscriptions/" ++ subscriptionInput.ID)
    (Payload.subscription subscriptionInput.sanitize)

/-- Create a transaction on braintree. -/
def TransactionGW.Create (tgw : TransactionGW) (rt : Runtime) (transaction : TransactionInput) :
    Outcome Transaction :=
  let transaction := { transaction with XMLName := "transaction" }
  tgw.bt.execute rt rt.decodeTransaction MethodPost "transactions"
    (Payload.transaction transaction)

/-- Find a transaction with a given transaction id on braintree. -/
def TransactionGW.Find (tgw : TransactionGW) (rt : Runtime) (id : String) :
    Outcome Transaction :=
  tgw.bt.execute rt rt.decodeTransaction MethodGet ("transactions/" ++ id) Payload.nil

/-- Refund a transaction on braintree after settlement. -/
def TransactionGW.Refund (tgw : TransactionGW) (rt : Runtime) (id : String) :
    Outcome Transaction :=
  tgw.bt.execute rt rt.decodeTransaction MethodPost ("transactions/" ++ id ++ "/refund")
    Payload.nil

/-- Settle a transaction on braintree. -/
def TransactionGW.Settle (tgw : TransactionGW) (rt : Runtime) (id : String) :
    Outcome Transaction :=
  tgw.bt.execute rt rt.decodeTransaction MethodPut ("transactions/" ++ id ++ "/settle")
    Payload.nil

/-- Void a transaction on braintree before settlement. -/
def TransactionGW.Void (tgw : TransactionGW) (rt : Runtime) (id : String) :
    Outcome Transaction :=
  tgw.bt.execute rt rt.decodeTransaction MethodPut ("transactions/" ++ id ++ "/void")
    Payload.nil

/-! ## Specification-side definitions -/

/-- The concatenation of the six validation-error lists in the order address, client-token,
credit-card, customer, subscription, transaction. -/
def ErrorEnvelope.allValidationErrors (errs : ErrorEnvelope) : List ValidationError :=
  errs.Address ++ errs.ClientToken ++ errs.CreditCard ++ errs.Customer ++ errs.Subscription
    ++ errs.Transaction

/-- The stages of the classifier in the words of the specification: the first validation
error of the concatenation, if there is one. -/
def validationStage (errs : ErrorEnvelope) : Option Err :=
  errs.allValidationErrors.head?.map Err.validation

/-- Stage two: a snapshot whose status is "gateway_rejected" gives a gateway error carrying
the rejection reason. -/
def gatewayStage (errs : ErrorEnvelope) : Option Err :=
  errs.TransactionResponse.bind fun tx =>
    if tx.Status = "gateway_rejected" then some (Err.gateway { Message := tx.GatewayRejectionReason })
    else none

/-- Stage three: a snapshot with a non-empty processor-response-code gives a processor error
with the parsed code and the processor-response-text, or the parse error. -/
def processorStage (errs : ErrorEnvelope) : Option Err :=
  errs.TransactionResponse.bind fun tx =>
    if tx.ProcessorResponseCode = "" then none
    else
      match Atoi tx.ProcessorResponseCode with
      | .ok n => some (Err.processor { Code := n, Message := tx.ProcessorResponseText })
      | .error e => some (Err.num e)

/-- The ordered fallback validation, gateway rejection, processor decline, generic: the first
stage that applies decides, and the generic error carries the HTTP status text. -/
def classifyBySpec (errs : ErrorEnvelope) (status : String) : Err :=
  ((validationStage errs <|> gatewayStage errs) <|> processorStage errs).getD (Err.text status)

/-- The five kinds of error the classifier may produce for a decoded 422 response. -/
def Err.isClassified (status : String) : Err → Bool
  | .validation _ => true
  | .gateway _ => true
  | .processor _ => true
  | .num _ => true
  | .text msg => msg == status
  | .xml _ => false
  | .transport _ => false

/-! ## Concrete inputs -/

/-- A 422 response with the given body. -/
def unprocessable (body : String) : Response :=
  { StatusCode := 422, Status := "422 Unprocessable Entity", Body := body }

/-- A decoder that reads every body as the given envelope. -/
def decodeAs (errs : ErrorEnvelope) : String → Except Err ErrorEnvelope :=
  fun _ => .ok errs

/-- A validation error on the customer. -/
def customerEmailError : ValidationError :=
  { Attribute := "email", Code := 81604, Message := "Email is an invalid format." }

/-- A second validation error, on the transaction. -/
def transactionAmountError : ValidationError :=
  { Attribute := "amount", Code := 81502, Message := "Amount is required." }

/-- A snapshot rejected by the gateway that also carries a processor response. -/
def rejectedSnapshot : Transaction :=
  { Status := "gateway_rejected", GatewayRejectionReason := "fraud suspected",
    ProcessorResponseCode := "2000", ProcessorResponseText := "Do Not Honor" }

/-- A snapshot declined by the processor. -/
def declinedSnapshot : Transaction :=
  { Status := "processor_declined", ProcessorResponseCode := "2000",
    ProcessorResponseText := "Do Not Honor" }

/-- A snapshot whose processor response code is not a number. -/
def garbledSnapshot : Transaction :=
  { Status := "processor_declined", ProcessorResponseCode := "20x0",
    ProcessorResponseText := "Do Not Honor" }

/-- A snapshot with neither a rejection nor a processor response. -/
def quietSnapshot : Transaction :=
  { Status := "failed" }

/-- An envelope with a customer and a transaction validation error and a rejected snapshot. -/
def mixedEnvelope : ErrorEnvelope :=
  { Customer := [customerEmailError], Transaction := [transactionAmountError],
    TransactionResponse := some rejectedSnapshot }

/-- The input whose fields all hold their zero value. -/
def zeroInput : SubscriptionInput := {}

/-- An input whose price is the number zero built as `decimal.New(0, 1)`, which is not the
zero value `decimal.Decimal{}`. -/
def numericZeroPriceInput : SubscriptionInput :=
  { PlanID := "gold", Price := { value := some 0, exp := 1 } }

/-- The client configuration used in the examples. -/
def sandboxClient : Braintree :=
  { environment := "sandbox", merchantID := "m42", publicKey := "pub", privateKey := "priv" }

/-- A runtime in which encoding and request construction succeed, the server answers every
request with `resp`, success bodies decode to empty entities and error bodies to `errs`. -/
def runtimeReplying (resp : Response) (errs : ErrorEnvelope) : Runtime :=
  { xmlEncode := fun _ => .ok ""
    requestErr := fun _ _ => none
    Do := fun _ => .ok resp
    decodeSubscription := fun _ => .ok {}
    decodeTransaction := fun _ => .ok {}
    decodeEnvelope := decodeAs errs }

/-- A 404 response as a Go HTTP client reports it. -/
def notFoundResponse : Response :=
  { StatusCode := 404, Status := "404 Not Found", Body := "" }

/-- A subscription input that only asks for a plan that never expires. -/
def neverExpiringInput : SubscriptionInput :=
  { PlanID := "gold", NeverExpires := true }

/-- The request `execute` builds for the example client, a method and a path. -/
def sandboxRequest (method path : String) : Request :=
  { Method := method
    URL := "https://sandbox.braintreegateway.com/merchants/m42/" ++ path
    Header := [("X-ApiVersion", "4"), ("Content-Type", "application/xml")]
    BasicAuth := some ("pub", "priv")
    Body := "" }

/-- The target of a request in the words of the specification:
`https://{environment}.{gateway-host}/merchants/{merchantID}/{path}` with the gateway host
`braintreegateway.com`. -/
def targetURL (e m p : String) : String :=
  "https://" ++ e ++ ".braintreegateway.com/merchants/" ++ m ++ "/" ++ p

/-- The outcome requests at most the given method and URL, and requests it whenever the
payload encodes and the request can be built. -/
def Outcome.requestsExactly {V : Type} (o : Outcome V) (rt : Runtime) (payload : Payload)
    (method url : String) : Prop :=
  (∀ r ∈ o.sent, r.Method = method ∧ r.URL = url) ∧
  (∀ body, rt.xmlEncode payload = .ok body → rt.requestErr method url = none →
    ∃ r, o.sent = [r] ∧ r.Method = method ∧ r.URL = url ∧ r.Body = body)

/-! ## Theorems: `parseError` -/

/-- The list `parseError` builds by repeated `append` is the concatenation of the six lists. -/
theorem parseError_of_decoded (decode : String → Except Err ErrorEnvelope) (resp : Response)
    (errs : ErrorEnvelope) (hs : resp.StatusCode = 422) (hd : decode resp.Body = .ok errs) :
    parseError decode resp =
      match errs.allValidationErrors with
      | v :: _ => some (Err.validation v)
      | [] =>
        match errs.TransactionResponse with
        | some tx =>
          if tx.Status = "gateway_rejected" then
            some (Err.gateway { Message := tx.GatewayRejectionReason })
          else if tx.ProcessorResponseCode ≠ "" then
            match Atoi tx.ProcessorResponseCode with
            | .error err => some (Err.num err)
            | .ok code => some (Err.processor { Code := code, Message := tx.ProcessorResponseText })
          else some (Err.text resp.Status)
        | none => some (Err.text resp.Status) := by
  simp only [parseError, hs, hd, StatusUnprocessableEntity, ErrorEnvelope.allValidationErrors,
    TransactionStatusGatewayRejected, errorsNew]
  simp

/-- C1: for a 422 response whose decoded envelope has a validation error in any of the six
lists, `parseError` returns the validation error that is first in the concatenation
address, client-token, credit-card, customer, subscription, transaction, whatever the
transaction snapshot holds. -/
theorem parseError_first_validation_error (decode : String → Except Err ErrorEnvelope)
    (resp : Response) (errs : ErrorEnvelope) (v : ValidationError) (rest : List ValidationError)
    (hs : resp.StatusCode = 422) (hd : decode resp.Body = .ok errs)
    (hv : errs.Address ++ errs.ClientToken ++ errs.CreditCard ++ errs.Customer
      ++ errs.Subscription ++ errs.Transaction = v :: rest) :
    parseError decode resp = some (Err.validation v) := by
  rw [parseError_of_decoded decode resp errs hs hd]
  simp only [ErrorEnvelope.allValidationErrors, hv]

/-- Witness of C1: a customer error, a transaction error and a rejected snapshot with a
processor code give the customer error. -/
theorem parseError_first_validation_error_witness :
    (unprocessable "").StatusCode = 422 ∧
    decodeAs mixedEnvelope (unprocessable "").Body = .ok mixedEnvelope ∧
    mixedEnvelope.Address ++ mixedEnvelope.ClientToken ++ mixedEnvelope.CreditCard
      ++ mixedEnvelope.Customer ++ mixedEnvelope.Subscription ++ mixedEnvelope.Transaction
      = customerEmailError :: [transactionAmountError] ∧
    parseError (decodeAs mixedEnvelope) (unprocessable "") =
      some (Err.validation customerEmailError) :=
  ⟨rfl, rfl, rfl,
    parseError_first_validation_error (decodeAs mixedEnvelope) (unprocessable "") mixedEnvelope
      customerEmailError [transactionAmountError] rfl rfl rfl⟩

/-- C2: for a 422 response whose decoded envelope has no validation error and a snapshot with
status "gateway_rejected", `parseError` returns a `GatewayError` whose message and `Error()`
text are the gateway-rejection-reason of the snapshot, whatever its processor-response-code. -/
theorem parseError_gateway_rejected (decode : String → Except Err ErrorEnvelope)
    (resp : Response) (errs : ErrorEnvelope) (tx : Transaction)
    (hs : resp.StatusCode = 422) (hd : decode resp.Body = .ok errs)
    (hv : errs.Address ++ errs.ClientToken ++ errs.CreditCard ++ errs.Customer
      ++ errs.Subscription ++ errs.Transaction = [])
    (ht : errs.TransactionResponse = some tx) (hst : tx.Status = "gateway_rejected") :
    ∃ g : GatewayError, parseError decode resp = some (Err.gateway g) ∧
      g.Message = tx.GatewayRejectionReason ∧ g.Error = tx.GatewayRejectionReason := by
  refine ⟨{ Message := tx.GatewayRejectionReason }, ?_, rfl, rfl⟩
  rw [parseError_of_decoded decode resp errs hs hd]
  simp only [ErrorEnvelope.allValidationErrors, hv, ht, hst, if_true]

/-- Witness of C2: reason "fraud suspected", processor code "2000" present. -/
theorem parseError_gateway_rejected_witness :
    ∃ g : GatewayError,
      parseError (decodeAs { TransactionResponse := some rejectedSnapshot }) (unprocessable "")
        = some (Err.gateway g) ∧
      g.Message = "fraud suspected" ∧ g.Error = "fraud suspected" :=
  parseError_gateway_rejected (decodeAs { TransactionResponse := some rejectedSnapshot })
    (unprocessable "") { TransactionResponse := some rejectedSnapshot } rejectedSnapshot
    rfl rfl rfl rfl rfl

/-- C3: for a 422 response whose decoded envelope has no validation error and a snapshot
whose status is not "gateway_rejected" and whose processor-response-code `s` is not empty,
`parseError` returns the processor error with code `n` and the processor-response-text when
`Atoi s` yields `n`, and the error of `Atoi` when it fails. -/
theorem parseError_processor_declined (decode : String → Except Err ErrorEnvelope)
    (resp : Response) (errs : ErrorEnvelope) (tx : Transaction)
    (hs : resp.StatusCode = 422) (hd : decode resp.Body = .ok errs)
    (hv : errs.Address ++ errs.ClientToken ++ errs.CreditCard ++ errs.Customer
      ++ errs.Subscription ++ errs.Transaction = [])
    (ht : errs.TransactionResponse = some tx) (hst : tx.Status ≠ "gateway_rejected")
    (hc : tx.ProcessorResponseCode ≠ "") :
    parseError decode resp =
      match Atoi tx.ProcessorResponseCode with
      | .ok n => some (Err.processor { Code := n, Message := tx.ProcessorResponseText })
      | .error e => some (Err.num e) := by
  rw [parseError_of_decoded decode resp errs hs hd]
  simp only [ErrorEnvelope.allValidationErrors, hv, ht, hst, hc, if_false, if_true, ne_eq,
    not_false_eq_true]
  cases Atoi tx.ProcessorResponseCode <;> rfl

/-- Witness of C3: code "2000" with text "Do Not Honor" gives `ProcessorError` 2000; the code
"20x0" gives the syntax error of `Atoi`. -/
theorem parseError_processor_declined_witness :
    parseError (decodeAs { TransactionResponse := some declinedSnapshot }) (unprocessable "")
      = some (Err.processor { Code := 2000, Message := "Do Not Honor" }) ∧
    parseError (decodeAs { TransactionResponse := some garbledSnapshot }) (unprocessable "")
      = some (Err.num { Func := "Atoi", Num := "20x0", Err := NumErrorKind.invalid }) :=
  ⟨parseError_processor_declined (decodeAs { TransactionResponse := some declinedSnapshot })
      (unprocessable "") { TransactionResponse := some declinedSnapshot } declinedSnapshot
      rfl rfl rfl rfl (by decide) (by decide),
   parseError_processor_declined (decodeAs { TransactionResponse := some garbledSnapshot })
      (unprocessable "") { TransactionResponse := some garbledSnapshot } garbledSnapshot
      rfl rfl rfl rfl (by decide) (by decide)⟩

/-- C7: for a 422 response whose envelope decodes with no validation error and that has no
snapshot, or a snapshot whose status is not "gateway_rejected" and whose
processor-response-code is empty, `parseError` returns the generic error whose message is the
HTTP status text; for a response whose status code is not 422 it returns that same error
whatever the decoder would make of the body. -/
theorem parseError_generic_fallback (decode : String → Except Err ErrorEnvelope)
    (resp : Response) :
    (resp.StatusCode ≠ 422 → parseError decode resp = some (Err.text resp.Status)) ∧
    (∀ errs : ErrorEnvelope, resp.StatusCode = 422 → decode resp.Body = .ok errs →
      errs.Address ++ errs.ClientToken ++ errs.CreditCard ++ errs.Customer
        ++ errs.Subscription ++ errs.Transaction = [] →
      (errs.TransactionResponse = none ∨
        ∃ tx, errs.TransactionResponse = some tx ∧ tx.Status ≠ "gateway_rejected" ∧
          tx.ProcessorResponseCode = "") →
      parseError decode resp = some (Err.text resp.Status)) := by
  constructor
  · intro hs
    simp [parseError, StatusUnprocessableEntity, hs, errorsNew]
  · intro errs hs hd hv hsnap
    rw [parseError_of_decoded decode resp errs hs hd]
    rcases hsnap with hnone | ⟨tx, ht, hst, hc⟩
    · simp only [ErrorEnvelope.allValidationErrors, hv, hnone]
    · simp only [ErrorEnvelope.allValidationErrors, hv, ht, hst, hc, if_false, ne_eq,
        not_true_eq_false]

/-- Witness of C7: a 500 response, a 422 response without snapshot and a 422 response with a
quiet snapshot all give the status text. -/
theorem parseError_generic_fallback_witness :
    parseError (decodeAs mixedEnvelope)
        { StatusCode := 500, Status := "500 Internal Server Error", Body := "" }
      = some (Err.text "500 Internal Server Error") ∧
    parseError (decodeAs {}) (unprocessable "") = some (Err.text "422 Unprocessable Entity") ∧
    parseError (decodeAs { TransactionResponse := some quietSnapshot }) (unprocessable "")
      = some (Err.text "422 Unprocessable Entity") :=
  ⟨(parseError_generic_fallback (decodeAs mixedEnvelope)
      { StatusCode := 500, Status := "500 Internal Server Error", Body := "" }).1 (by decide),
   (parseError_generic_fallback (decodeAs {}) (unprocessable "")).2 {} rfl rfl rfl (Or.inl rfl),
   (parseError_generic_fallback (decodeAs { TransactionResponse := some quietSnapshot })
      (unprocessable "")).2 { TransactionResponse := some quietSnapshot } rfl rfl rfl
      (Or.inr ⟨quietSnapshot, rfl, by decide, rfl⟩)⟩

/-- The code path of `parseError` on a decoded 422 response is the ordered fallback of the
specification. -/
theorem parseError_eq_classifyBySpec (decode : String → Except Err ErrorEnvelope)
    (resp : Response) (errs : ErrorEnvelope) (hs : resp.StatusCode = 422)
    (hd : decode resp.Body = .ok errs) :
    parseError decode resp = some (classifyBySpec errs resp.Status) := by
  rw [parseError_of_decoded decode resp errs hs hd]
  unfold classifyBySpec validationStage gatewayStage processorStage
  cases hl : errs.allValidationErrors with
  | cons v rest => simp
  | nil =>
    cases ht : errs.TransactionResponse with
    | none => simp
    | some tx =>
      by_cases hst : tx.Status = "gateway_rejected"
      · simp [hst]
      · by_cases hc : tx.ProcessorResponseCode = ""
        · simp [hst, hc]
        · cases ha : Atoi tx.ProcessorResponseCode <;> simp [hst, hc, ha]

/-- The ordered fallback only produces the five kinds of error. -/
theorem classifyBySpec_isClassified (errs : ErrorEnvelope) (status : String) :
    (classifyBySpec errs status).isClassified status = true := by
  unfold classifyBySpec validationStage gatewayStage processorStage
  cases hl : errs.allValidationErrors with
  | cons v rest => simp [Err.isClassified]
  | nil =>
    cases ht : errs.TransactionResponse with
    | none => simp [Err.isClassified]
    | some tx =>
      by_cases hst : tx.Status = "gateway_rejected"
      · simp [hst, Err.isClassified]
      · by_cases hc : tx.ProcessorResponseCode = ""
        · simp [hst, hc, Err.isClassified]
        · cases ha : Atoi tx.ProcessorResponseCode <;> simp [hst, hc, ha, Err.isClassified]

/-- C10: `parseError` never returns nil; on a 422 response whose body decodes, its result is
the ordered fallback (validation, gateway rejection, processor decline, generic) applied to
the decoded envelope and the status text, it is one of validation error, gateway error,
processor error, integer-parse error or generic status error, and two responses with the
same status and the same decoded envelope give equal errors. -/
theorem parseError_total_and_determined (decode : String → Except Err ErrorEnvelope)
    (resp : Response) :
    (parseError decode resp).isSome = true ∧
    (∀ errs : ErrorEnvelope, resp.StatusCode = 422 → decode resp.Body = .ok errs →
      parseError decode resp = some (classifyBySpec errs resp.Status) ∧
      (classifyBySpec errs resp.Status).isClassified resp.Status = true ∧
      ∀ (decode2 : String → Except Err ErrorEnvelope) (resp2 : Response),
        resp2.StatusCode = resp.StatusCode → resp2.Status = resp.Status →
        decode2 resp2.Body = .ok errs → parseError decode2 resp2 = parseError decode resp) := by
  constructor
  · by_cases hs : resp.StatusCode = 422
    · cases hd : decode resp.Body with
      | error e => simp [parseError, StatusUnprocessableEntity, hs, hd]
      | ok errs => simp [parseError_eq_classifyBySpec decode resp errs hs hd]
    · simp [parseError, StatusUnprocessableEntity, hs]
  · intro errs hs hd
    refine ⟨parseError_eq_classifyBySpec decode resp errs hs hd,
      classifyBySpec_isClassified errs resp.Status, ?_⟩
    intro decode2 resp2 hs2 hst2 hd2
    rw [parseError_eq_classifyBySpec decode resp errs hs hd,
      parseError_eq_classifyBySpec decode2 resp2 errs (hs2.trans hs) hd2, hst2]

/-- Witness of C10: the mixed envelope is classified as its first validation error, also
when it arrives in a response with another body. -/
theorem parseError_total_and_determined_witness :
    parseError (decodeAs mixedEnvelope) (unprocessable "a")
      = some (classifyBySpec mixedEnvelope "422 Unprocessable Entity") ∧
    classifyBySpec mixedEnvelope "422 Unprocessable Entity" = Err.validation customerEmailError ∧
    parseError (decodeAs mixedEnvelope) (unprocessable "b")
      = parseError (decodeAs mixedEnvelope) (unprocessable "a") :=
  ⟨((parseError_total_and_determined (decodeAs mixedEnvelope) (unprocessable "a")).2
      mixedEnvelope rfl rfl).1,
   by decide,
   ((parseError_total_and_determined (decodeAs mixedEnvelope) (unprocessable "a")).2
      mixedEnvelope rfl rfl).2.2 (decodeAs mixedEnvelope) (unprocessable "b") rfl rfl rfl⟩

/-! ## Theorems: `sanitize` and the encoded body -/

/-- The encoder handles the fields one after the other. -/
theorem filterMap_cons_toList {α β : Type} (f : α → Option β) (a : α) (l : List α) :
    List.filterMap f (a :: l) = (f a).toList ++ List.filterMap f l := by
  rw [List.filterMap_cons]
  cases f a <;> rfl

/-- An `int` field tagged `omitempty` is written unless it is `0`. -/
theorem marshalField_int (name : String) (i : Int) :
    (marshalField { Name := name, OmitEmpty := true, Value := .int i }).toList =
      if i = 0 then [] else [{ Name := name, Value := .int i }] := by
  by_cases h : i = 0 <;> simp [marshalField, isEmptyValue, h]

/-- A `string` field tagged `omitempty` is written unless it is empty. -/
theorem marshalField_str (name s : String) :
    (marshalField { Name := name, OmitEmpty := true, Value := .str s }).toList =
      if s = "" then [] else [{ Name := name, Value := .str s }] := by
  by_cases h : s = ""
  · subst h
    simp [marshalField, isEmptyValue]
  · have hl : s.length ≠ 0 := by
      intro h0
      apply h
      cases s with
      | mk data =>
        have hd : data = [] := List.length_eq_zero.mp h0
        subst hd
        rfl
    simp [marshalField, isEmptyValue, h, hl]

/-- A `bool` field tagged `omitempty` is written unless it is `false`. -/
theorem marshalField_bool (name : String) (b : Bool) :
    (marshalField { Name := name, OmitEmpty := true, Value := .bool b }).toList =
      if b = false then [] else [{ Name := name, Value := .bool b }] := by
  cases b <;> simp [marshalField, isEmptyValue]

/-- A `string` field without `omitempty` is always written. -/
theorem marshalField_required_str (name s : String) :
    (marshalField { Name := name, OmitEmpty := false, Value := .str s }).toList =
      [{ Name := name, Value := .str s }] := by
  simp [marshalField]

/-- A pointer field tagged `omitempty` is written unless it is nil. -/
theorem marshalField_decimalPtr (name : String) (p : Option Decimal) :
    (marshalField { Name := name, OmitEmpty := true, Value := .decimalPtr p }).toList =
      match p with
      | none => []
      | some d => [{ Name := name, Value := .decimalPtr (some d) }] := by
  cases p <;> simp [marshalField, isEmptyValue]

/-- The child elements of the body of a sanitized input, field by field. -/
theorem marshal_children (sis : subscriptionInputSanitized) :
    sis.marshal.Children =
      (if sis.BillingDayOfMonth = 0 then []
        else [{ Name := "billing-day-of-month", Value := .int sis.BillingDayOfMonth }])
      ++ (if sis.ID = "" then [] else [{ Name := "id", Value := .str sis.ID }])
      ++ (if sis.MerchantAccountID = "" then []
        else [{ Name := "merchant-account-id", Value := .str sis.MerchantAccountID }])
      ++ (if sis.NeverExpires = false then []
        else [{ Name := "never-expires", Value := .bool sis.NeverExpires }])
      ++ (if sis.PaymentMethodNonce = "" then []
        else [{ Name := "payment-method-nonce", Value := .str sis.PaymentMethodNonce }])
      ++ (if sis.PaymentMethodToken = "" then []
        else [{ Name := "payment-method-token", Value := .str sis.PaymentMethodToken }])
      ++ [{ Name := "plan-id", Value := .str sis.PlanID }]
      ++ (match sis.Price with
        | none => []
        | some d => [{ Name := "price", Value := .decimalPtr (some d) }])
      ++ (if sis.TrialDuration = 0 then []
        else [{ Name := "trial-duration", Value := .int sis.TrialDuration }])
      ++ (if sis.TrialDurationUnit = "" then []
        else [{ Name := "trial-duration-unit", Value := .str sis.TrialDurationUnit }])
      ++ (if sis.TrialPeriod = false then []
        else [{ Name := "trial-period", Value := .bool sis.TrialPeriod }]) := by
  simp only [subscriptionInputSanitized.marshal, subscriptionInputSanitized.fields,
    filterMap_cons_toList, List.filterMap_nil, marshalField_int, marshalField_str,
    marshalField_bool, marshalField_required_str, marshalField_decimalPtr, List.append_assoc,
    List.append_nil]


/-- The fields of the sanitized shape, one by one. -/
theorem sanitize_fields (si : SubscriptionInput) :
    si.sanitize =
      { BillingDayOfMonth := si.BillingDayOfMonth
        ID := si.ID
        MerchantAccountID := si.MerchantAccountID
        NeverExpires := false
        PaymentMethodNonce := si.PaymentMethodNonce
        PaymentMethodToken := si.PaymentMethodToken
        PlanID := si.PlanID
        Price := if si.Price = ({} : Decimal) then none else some si.Price
        TrialDuration := si.TrialDuration
        TrialDurationUnit := si.TrialDurationUnit
        TrialPeriod := si.TrialPeriod } := by
  unfold SubscriptionInput.sanitize
  by_cases h : si.Price = ({} : Decimal) <;> simp [h]

/-- Searching a list that holds one element unless a condition holds. -/
theorem any_ite_nil_singleton {α : Type} (c : Prop) [Decidable c] (x : α) (p : α → Bool) :
    (if c then [] else [x]).any p = (decide (¬ c) && p x) := by
  by_cases h : c <;> simp [h]

/-- Whether the body of a sanitized input has an element of a given name. -/
theorem hasElement_sanitize (si : SubscriptionInput) (name : String) :
    si.sanitize.marshal.hasElement name =
      ((decide (si.BillingDayOfMonth ≠ 0) && "billing-day-of-month" == name)
      || (decide (si.ID ≠ "") && "id" == name)
      || (decide (si.MerchantAccountID ≠ "") && "merchant-account-id" == name)
      || (decide (si.PaymentMethodNonce ≠ "") && "payment-method-nonce" == name)
      || (decide (si.PaymentMethodToken ≠ "") && "payment-method-token" == name)
      || "plan-id" == name
      || (decide (si.Price ≠ ({} : Decimal)) && "price" == name)
      || (decide (si.TrialDuration ≠ 0) && "trial-duration" == name)
      || (decide (si.TrialDurationUnit ≠ "") && "trial-duration-unit" == name)
      || (si.TrialPeriod && "trial-period" == name)) := by
  simp only [XmlDocument.hasElement, marshal_children, sanitize_fields, List.any_append,
    any_ite_nil_singleton]
  by_cases hp : si.Price = ({} : Decimal) <;> cases htp : si.TrialPeriod <;> simp [hp, htp]

/-- Filtering a list that holds one element unless a condition holds. -/
theorem filter_ite_nil_singleton {α : Type} (c : Prop) [Decidable c] (x : α) (p : α → Bool) :
    (if c then [] else [x]).filter p = if c then [] else if p x then [x] else [] := by
  by_cases h : c <;> by_cases hx : p x <;> simp [h, hx]

/-- The body of a sanitized input has exactly one `plan-id` element, holding the plan id. -/
theorem planID_element (si : SubscriptionInput) :
    si.sanitize.marshal.elementValues "plan-id" = [FieldValue.str si.PlanID] := by
  simp only [XmlDocument.elementValues, marshal_children, sanitize_fields, List.filter_append,
    filter_ite_nil_singleton]
  by_cases h6 : si.Price = ({} : Decimal) <;> simp [h6]

/-- C6: the body encoded from `sanitize()` has no element for an optional field whose input
value is the zero value (`0`, `""`, `false`, `decimal.Decimal{}`): billing-day-of-month, id,
merchant-account-id, never-expires, payment-method-nonce, payment-method-token,
trial-duration, trial-duration-unit, trial-period and price, the sanitized `Price` being nil
for the zero price; the plan-id element is present for every input, with the plan id as its
content, also when that is empty. -/
theorem sanitize_omits_zero_values (si : SubscriptionInput) :
    (si.BillingDayOfMonth = 0 →
      si.sanitize.marshal.hasElement "billing-day-of-month" = false) ∧
    (si.ID = "" → si.sanitize.marshal.hasElement "id" = false) ∧
    (si.MerchantAccountID = "" → si.sanitize.marshal.hasElement "merchant-account-id" = false) ∧
    (si.NeverExpires = false → si.sanitize.marshal.hasElement "never-expires" = false) ∧
    (si.PaymentMethodNonce = "" →
      si.sanitize.marshal.hasElement "payment-method-nonce" = false) ∧
    (si.PaymentMethodToken = "" →
      si.sanitize.marshal.hasElement "payment-method-token" = false) ∧
    (si.TrialDuration = 0 → si.sanitize.marshal.hasElement "trial-duration" = false) ∧
    (si.TrialDurationUnit = "" →
      si.sanitize.marshal.hasElement "trial-duration-unit" = false) ∧
    (si.TrialPeriod = false → si.sanitize.marshal.hasElement "trial-period" = false) ∧
    (si.Price = ({} : Decimal) →
      si.sanitize.Price = none ∧ si.sanitize.marshal.hasElement "price" = false) ∧
    si.sanitize.marshal.hasElement "plan-id" = true ∧
    si.sanitize.marshal.elementValues "plan-id" = [FieldValue.str si.PlanID] := by
  refine ⟨?_, ?_, ?_, ?_, ?_, ?_, ?_, ?_, ?_, ?_, ?_, planID_element si⟩
  · intro h; simp [hasElement_sanitize, h]
  · intro h; simp [hasElement_sanitize, h]
  · intro h; simp [hasElement_sanitize, h]
  · intro _; simp [hasElement_sanitize]
  · intro h; simp [hasElement_sanitize, h]
  · intro h; simp [hasElement_sanitize, h]
  · intro h; simp [hasElement_sanitize, h]
  · intro h; simp [hasElement_sanitize, h]
  · intro h; simp [hasElement_sanitize, h]
  · intro h
    refine ⟨?_, ?_⟩
    · rw [sanitize_fields]; simp [h]
    · simp [hasElement_sanitize, h]
  · simp [hasElement_sanitize]

/-- Witness of C6: for the all-zero input the body has the plan-id element and none of the
optional ones, and the sanitized price is nil. -/
theorem sanitize_omits_zero_values_witness :
    zeroInput.sanitize.marshal.hasElement "billing-day-of-month" = false ∧
    zeroInput.sanitize.marshal.hasElement "id" = false ∧
    zeroInput.sanitize.marshal.hasElement "merchant-account-id" = false ∧
    zeroInput.sanitize.marshal.hasElement "never-expires" = false ∧
    zeroInput.sanitize.marshal.hasElement "payment-method-nonce" = false ∧
    zeroInput.sanitize.marshal.hasElement "payment-method-token" = false ∧
    zeroInput.sanitize.marshal.hasElement "trial-duration" = false ∧
    zeroInput.sanitize.marshal.hasElement "trial-duration-unit" = false ∧
    zeroInput.sanitize.marshal.hasElement "trial-period" = false ∧
    (zeroInput.sanitize.Price = none ∧ zeroInput.sanitize.marshal.hasElement "price" = false) ∧
    zeroInput.sanitize.marshal.hasElement "plan-id" = true ∧
    zeroInput.sanitize.marshal.elementValues "plan-id" = [FieldValue.str ""] :=
  ⟨(sanitize_omits_zero_values zeroInput).1 rfl,
   (sanitize_omits_zero_values zeroInput).2.1 rfl,
   (sanitize_omits_zero_values zeroInput).2.2.1 rfl,
   (sanitize_omits_zero_values zeroInput).2.2.2.1 rfl,
   (sanitize_omits_zero_values zeroInput).2.2.2.2.1 rfl,
   (sanitize_omits_zero_values zeroInput).2.2.2.2.2.1 rfl,
   (sanitize_omits_zero_values zeroInput).2.2.2.2.2.2.1 rfl,
   (sanitize_omits_zero_values zeroInput).2.2.2.2.2.2.2.1 rfl,
   (sanitize_omits_zero_values zeroInput).2.2.2.2.2.2.2.2.1 rfl,
   (sanitize_omits_zero_values zeroInput).2.2.2.2.2.2.2.2.2.1 rfl,
   (sanitize_omits_zero_values zeroInput).2.2.2.2.2.2.2.2.2.2⟩

/-- C9 (the code departs from it): `sanitize` leaves `NeverExpires` at `false` for every
input, so the body never has a never-expires element; for the input with plan "gold" and
`NeverExpires = true` the sanitized shape is that of the plan alone. -/
theorem sanitize_drops_NeverExpires :
    (∀ si : SubscriptionInput, si.sanitize.NeverExpires = false ∧
      si.sanitize.marshal.hasElement "never-expires" = false) ∧
    neverExpiringInput.NeverExpires = true ∧
    neverExpiringInput.sanitize = { PlanID := "gold" } ∧
    neverExpiringInput.sanitize.marshal =
      { Name := "subscription", Children := [{ Name := "plan-id", Value := .str "gold" }] } := by
  refine ⟨fun si => ⟨?_, ?_⟩, rfl, by decide, by decide⟩
  · rw [sanitize_fields]
  · simp [hasElement_sanitize]

/-- Apart from `NeverExpires`, every field of the sanitized shape is the same-named field of
the input, and `Price` points to the input price whenever that is not the zero value. -/
theorem sanitize_keeps_other_fields (si : SubscriptionInput) :
    si.sanitize.BillingDayOfMonth = si.BillingDayOfMonth ∧
    si.sanitize.ID = si.ID ∧
    si.sanitize.MerchantAccountID = si.MerchantAccountID ∧
    si.sanitize.PaymentMethodNonce = si.PaymentMethodNonce ∧
    si.sanitize.PaymentMethodToken = si.PaymentMethodToken ∧
    si.sanitize.PlanID = si.PlanID ∧
    si.sanitize.TrialDuration = si.TrialDuration ∧
    si.sanitize.TrialDurationUnit = si.TrialDurationUnit ∧
    si.sanitize.TrialPeriod = si.TrialPeriod ∧
    (si.Price ≠ ({} : Decimal) → si.sanitize.Price = some si.Price) := by
  rw [sanitize_fields]
  refine ⟨rfl, rfl, rfl, rfl, rfl, rfl, rfl, rfl, rfl, ?_⟩
  intro h
  simp [h]

/-- A price that is a number zero held behind a non-nil pointer differs from
`decimal.Decimal{}`: `sanitize` keeps it and the body has a price element. -/
theorem sanitize_keeps_numeric_zero_price :
    numericZeroPriceInput.sanitize.Price = some { value := some 0, exp := 1 } ∧
    numericZeroPriceInput.sanitize.marshal.hasElement "price" = true := by
  refine ⟨by decide, by decide⟩

/-! ## Theorems: `execute` and the gateways -/

/-- The request `execute` hands to the HTTP client for a method, a path and an encoded body. -/
theorem execute_sent {V : Type} (bt : Braintree) (rt : Runtime)
    (decodeV : String → Except Err V) (method path : String) (payload : Payload) :
    (bt.execute rt decodeV method path payload).sent =
      match rt.xmlEncode payload with
      | .error _ => []
      | .ok buf =>
        match rt.requestErr (if method = "" then "GET" else method)
          ("https://" ++ bt.environment ++ ".braintreegateway.com/merchants/" ++ bt.merchantID
            ++ "/" ++ path) with
        | some _ => []
        | none =>
          [{ Method := if method = "" then "GET" else method
             URL := "https://" ++ bt.environment ++ ".braintreegateway.com/merchants/"
               ++ bt.merchantID ++ "/" ++ path
             Header := [("X-ApiVersion", "4"), ("Content-Type", "application/xml")]
             BasicAuth := some (bt.publicKey, bt.privateKey)
             Body := buf }] := by
  unfold Braintree.execute NewRequest
  cases he : rt.xmlEncode payload with
  | error e => rfl
  | ok buf =>
    simp only []
    cases hr : rt.requestErr (if method = "" then "GET" else method)
      ("https://" ++ bt.environment ++ ".braintreegateway.com/merchants/" ++ bt.merchantID
        ++ "/" ++ path) with
    | some e => rfl
    | none =>
      simp only [Request.headerSet, Request.SetBasicAuth]
      cases hd : rt.Do _ with
      | error e => simp
      | ok resp =>
        simp only []
        split_ifs <;> simp


/-- A call of `execute` with a non-empty method requests exactly that method at the target
URL of its path. -/
theorem execute_requestsExactly {V : Type} (bt : Braintree) (rt : Runtime)
    (decodeV : String → Except Err V) (method path : String) (payload : Payload)
    (hm : method ≠ "") :
    (bt.execute rt decodeV method path payload).requestsExactly rt payload method
      (targetURL bt.environment bt.merchantID path) := by
  unfold Outcome.requestsExactly targetURL
  rw [execute_sent]
  simp only [hm, if_false]
  constructor
  · intro r hr
    cases he : rt.xmlEncode payload with
    | error e => simp [he] at hr
    | ok buf =>
      cases hq : rt.requestErr method ("https://" ++ bt.environment
        ++ ".braintreegateway.com/merchants/" ++ bt.merchantID ++ "/" ++ path) with
      | some e => simp [he, hq] at hr
      | none =>
        simp only [he, hq, List.mem_singleton] at hr
        subst hr
        exact ⟨rfl, rfl⟩
  · intro body he hq
    simp only [he, hq]
    exact ⟨_, rfl, rfl, rfl, rfl⟩

/-- C8: every request `execute` issues goes to
`"https://" ++ e ++ ".braintreegateway.com/merchants/" ++ m ++ "/" ++ p`, and one such request
is issued whenever the payload encodes and the request can be built; the gateways request
exactly: Subscription.Create POST `subscriptions`, Find GET `subscriptions/id`, Update PUT
`subscriptions/input.ID`, Cancel PUT `subscriptions/id/cancel`, Transaction.Create POST
`transactions`, Find GET `transactions/id`, Refund POST `transactions/id/refund`, Settle PUT
`transactions/id/settle`, Void PUT `transactions/id/void`. -/
theorem request_target (bt : Braintree) (rt : Runtime) :
    (∀ (V : Type) (decodeV : String → Except Err V) (method p : String) (payload : Payload),
      (∀ r ∈ (bt.execute rt decodeV method p payload).sent,
        r.URL = "https://" ++ bt.environment ++ ".braintreegateway.com/merchants/"
          ++ bt.merchantID ++ "/" ++ p) ∧
      (∀ body, rt.xmlEncode payload = .ok body →
        rt.requestErr (if method = "" then "GET" else method)
          ("https://" ++ bt.environment ++ ".braintreegateway.com/merchants/"
            ++ bt.merchantID ++ "/" ++ p) = none →
        ∃ r, (bt.execute rt decodeV method p payload).sent = [r] ∧
          r.URL = "https://" ++ bt.environment ++ ".braintreegateway.com/merchants/"
            ++ bt.merchantID ++ "/" ++ p ∧ r.Body = body)) ∧
    (∀ input : SubscriptionInput,
      (SubscriptionGW.Create ⟨bt⟩ rt input).requestsExactly rt
        (Payload.subscription input.sanitize) "POST"
        (targetURL bt.environment bt.merchantID "subscriptions")) ∧
    (∀ id : String,
      (SubscriptionGW.Find ⟨bt⟩ rt id).requestsExactly rt Payload.nil "GET"
        (targetURL bt.environment bt.merchantID ("subscriptions/" ++ id))) ∧
    (∀ input : SubscriptionInput,
      (SubscriptionGW.Update ⟨bt⟩ rt input).requestsExactly rt
        (Payload.subscription input.sanitize) "PUT"
        (targetURL bt.environment bt.merchantID ("subscriptions/" ++ input.ID))) ∧
    (∀ id : String,
      (SubscriptionGW.Cancel ⟨bt⟩ rt id).requestsExactly rt Payload.nil "PUT"
        (targetURL bt.environment bt.merchantID ("subscriptions/" ++ id ++ "/cancel"))) ∧
    (∀ input : TransactionInput,
      (TransactionGW.Create ⟨bt⟩ rt input).requestsExactly rt
        (Payload.transaction { input with XMLName := "transaction" }) "POST"
        (targetURL bt.environment bt.merchantID "transactions")) ∧
    (∀ id : String,
      (TransactionGW.Find ⟨bt⟩ rt id).requestsExactly rt Payload.nil "GET"
        (targetURL bt.environment bt.merchantID ("transactions/" ++ id))) ∧
    (∀ id : String,
      (TransactionGW.Refund ⟨bt⟩ rt id).requestsExactly rt Payload.nil "POST"
        (targetURL bt.environment bt.merchantID ("transactions/" ++ id ++ "/refund"))) ∧
    (∀ id : String,
      (TransactionGW.Settle ⟨bt⟩ rt id).requestsExactly rt Payload.nil "PUT"
        (targetURL bt.environment bt.merchantID ("transactions/" ++ id ++ "/settle"))) ∧
    (∀ id : String,
      (TransactionGW.Void ⟨bt⟩ rt id).requestsExactly rt Payload.nil "PUT"
        (targetURL bt.environment bt.merchantID ("transactions/" ++ id ++ "/void"))) := by
  refine ⟨?_, ?_, ?_, ?_, ?_, ?_, ?_, ?_, ?_, ?_⟩
  · intro V decodeV method p payload
    rw [execute_sent]
    constructor
    · intro r hr
      cases he : rt.xmlEncode payload with
      | error e => simp [he] at hr
      | ok buf =>
        cases hq : rt.requestErr (if method = "" then "GET" else method)
          ("https://" ++ bt.environment ++ ".braintreegateway.com/merchants/"
            ++ bt.merchantID ++ "/" ++ p) with
        | some e => simp [he, hq] at hr
        | none =>
          simp only [he, hq, List.mem_singleton] at hr
          subst hr
          rfl
    · intro body he hq
      simp only [he, hq]
      exact ⟨_, rfl, rfl, rfl⟩
  · intro input
    exact execute_requestsExactly bt rt _ "POST" _ _ (by decide)
  · intro id
    exact execute_requestsExactly bt rt _ "GET" _ _ (by decide)
  · intro input
    exact execute_requestsExactly bt rt _ "PUT" _ _ (by decide)
  · intro id
    exact execute_requestsExactly bt rt _ "PUT" _ _ (by decide)
  · intro input
    exact execute_requestsExactly bt rt _ "POST" _ _ (by decide)
  · intro id
    exact execute_requestsExactly bt rt _ "GET" _ _ (by decide)
  · intro id
    exact execute_requestsExactly bt rt _ "POST" _ _ (by decide)
  · intro id
    exact execute_requestsExactly bt rt _ "PUT" _ _ (by decide)
  · intro id
    exact execute_requestsExactly bt rt _ "PUT" _ _ (by decide)


/-- Witness of C8: against a server that answers every request, cancelling subscription "s1"
issues one PUT to the cancel path under the merchant of the client, and `execute` itself
issues one request to the URL of its path. -/
theorem request_target_witness :
    (∃ r, (SubscriptionGW.Cancel ⟨sandboxClient⟩ (runtimeReplying notFoundResponse {}) "s1").sent
        = [r] ∧ r.Method = "PUT" ∧
      r.URL = "https://sandbox.braintreegateway.com/merchants/m42/subscriptions/s1/cancel" ∧
      r.Body = "") ∧
    (∃ r, (sandboxClient.execute (runtimeReplying notFoundResponse {})
        (runtimeReplying notFoundResponse {}).decodeTransaction "GET" "transactions/t1"
        Payload.nil).sent = [r] ∧
      r.URL = "https://sandbox.braintreegateway.com/merchants/m42/transactions/t1" ∧
      r.Body = "") :=
  ⟨((request_target sandboxClient (runtimeReplying notFoundResponse {})).2.2.2.2.1 "s1").2 ""
      rfl rfl,
   ((request_target sandboxClient (runtimeReplying notFoundResponse {})).1 Transaction
      (runtimeReplying notFoundResponse {}).decodeTransaction "GET" "transactions/t1"
      Payload.nil).2 "" rfl rfl⟩

/-- What `execute` returns once the server has answered: the decoded body for 200 and 201,
the fixed text "404: not found" for 404, and the text "unexpected error: code: status" for
every other status code. -/
theorem execute_result_of_response {V : Type} (bt : Braintree) (rt : Runtime)
    (decodeV : String → Except Err V) (method path : String) (payload : Payload)
    (buf : String) (req : Request) (resp : Response)
    (he : rt.xmlEncode payload = .ok buf)
    (hq : NewRequest rt method
      ("https://" ++ bt.environment ++ ".braintreegateway.com/merchants/" ++ bt.merchantID
        ++ "/" ++ path) buf = .ok req)
    (hd : rt.Do (((req.headerSet "X-ApiVersion" "4").headerSet "Content-Type"
      "application/xml").SetBasicAuth bt.publicKey bt.privateKey) = .ok resp) :
    (bt.execute rt decodeV method path payload).result =
      if resp.StatusCode = 200 ∨ resp.StatusCode = 201 then decodeV resp.Body
      else if resp.StatusCode = 404 then .error (Err.text "404: not found")
      else .error (Err.text ("unexpected error: " ++ fmtInt resp.StatusCode ++ ": "
        ++ resp.Status)) := by
  unfold Braintree.execute
  simp only [he, hq, hd, StatusOK, StatusCreated, StatusNotFound, errorsNew, unexpectedError]
  split_ifs <;> rfl

/-- C4 (the code departs from it): for a 422 response whose envelope holds a customer
validation error, `parseError` yields that validation error, while `execute` returns the
text error "unexpected error: 422: 422 Unprocessable Entity". -/
theorem execute_422_bypasses_parseError :
    parseError (runtimeReplying (unprocessable "") mixedEnvelope).decodeEnvelope
        (unprocessable "") = some (Err.validation customerEmailError) ∧
    (sandboxClient.execute (runtimeReplying (unprocessable "") mixedEnvelope)
        (runtimeReplying (unprocessable "") mixedEnvelope).decodeSubscription
        "POST" "subscriptions" (Payload.subscription zeroInput.sanitize)).result
      = .error (Err.text "unexpected error: 422: 422 Unprocessable Entity") ∧
    (SubscriptionGW.Create ⟨sandboxClient⟩ (runtimeReplying (unprocessable "") mixedEnvelope)
        zeroInput).result
      ≠ .error (Err.validation customerEmailError) := by
  refine ⟨by decide, by decide, by decide⟩

/-- C5 (the code departs from it): for a response with status code 404 and status text
"404 Not Found", `execute` returns the text error "404: not found", which is not
"404 Not Found". -/
theorem execute_404_message :
    (sandboxClient.execute (runtimeReplying notFoundResponse {})
        (runtimeReplying notFoundResponse {}).decodeSubscription
        "GET" "subscriptions/unknown" Payload.nil).result
      = .error (Err.text "404: not found") ∧
    (sandboxClient.execute (runtimeReplying notFoundResponse {})
        (runtimeReplying notFoundResponse {}).decodeSubscription
        "GET" "subscriptions/unknown" Payload.nil).result
      ≠ .error (Err.text "404 Not Found") ∧
    parseError (runtimeReplying notFoundResponse {}).decodeEnvelope notFoundResponse
      = some (Err.text "404 Not Found") := by
  refine ⟨by decide, by decide, by decide⟩

end BraintreeGo
